import Mathlib

/-!
Verification model of the lan-play-bridge launcher
(src/launcher/launcher.js), shallowly embedded in Lean.

The launcher is a single-threaded, event-driven Node.js process.  Its
mutable module-level state (launcher.js lines 78-86) becomes the
structure LState; each event callback of the source becomes a pure
function from state to a pair of a new state and an Output record of
the observable effects of that callback (messages sent on control
connections, connections closed, log lines, kill and spawn calls,
monitor triggers); a whole execution becomes a fold of a step function
over a list of timestamped events (runTrace).  Timestamps are naturals
counting milliseconds, as produced by Date.now in the source.  JS
subtraction now - t on such timestamps coincides with truncated Nat
subtraction in every comparison the source performs, because a negative
difference and a zero difference fall on the same side of every
threshold test.
-/

namespace LanPlayBridge

/-- CONFIG (launcher.js lines 53-60), restricted to the fields the
modelled callbacks read.  Immutable after startup. -/
structure Config where
  relay : String
  platform : String
  version : String
deriving DecidableEq

/-- CONFIG.heartbeatTimeoutMs (launcher.js line 56). -/
def heartbeatTimeoutMs : Nat := 30 * 1000

/-- CONFIG.inactivityTimeoutMs (launcher.js line 57). -/
def inactivityTimeoutMs : Nat := 10 * 60 * 1000

/-- CONFIG.checkIntervalMs (launcher.js line 58). -/
def checkIntervalMs : Nat := 5 * 1000

/-- The fixed crash-restart backoff (launcher.js line 175). -/
def restartDelayMs : Nat := 3000

/-- The grace delay before process.exit in shutdown (launcher.js line 325). -/
def exitDelayMs : Nat := 1000

/-- A control connection: its identity and its readyState field
(1 means OPEN, as in wsSend, launcher.js line 258). -/
structure Conn where
  id : Nat
  readyState : Nat
deriving DecidableEq

/-- The status payload built by getStatus (launcher.js lines 271-278). -/
structure Status where
  running : Bool
  relay : String
  platform : String
  version : String
deriving DecidableEq

/-- A JSON message sent by the launcher to a client. -/
inductive Msg where
  | status (data : Status)
  | heartbeatAck
  | shutdown (reason : String)
deriving DecidableEq

/-- Which monitor condition tripped on a tick (launcher.js lines
289 and 296). -/
inductive Trigger where
  | heartbeat
  | inactivity
deriving DecidableEq

/-- The observable effects of one callback: messages sent (connection
id paired with the message, in send order), connections closed, log
lines emitted, number of kill calls on the subprocess, number of spawn
calls, and which monitor conditions tripped. -/
structure Output where
  sends : List (Nat × Msg) := []
  closes : List Nat := []
  logs : List String := []
  kills : Nat := 0
  spawns : Nat := 0
  triggers : List Trigger := []
deriving DecidableEq

/-- Effects of two successive callbacks, concatenated in order. -/
def Output.append (a b : Output) : Output :=
  { sends := a.sends ++ b.sends
    closes := a.closes ++ b.closes
    logs := a.logs ++ b.logs
    kills := a.kills + b.kills
    spawns := a.spawns + b.spawns
    triggers := a.triggers ++ b.triggers }

instance : Append Output := ⟨Output.append⟩

/-- The result of JSON.parse on a client message (launcher.js line
224): either the parse threw, or it produced an object whose type
field reads as the given string (a missing or non-string type field
compares unequal to every literal, which the parsed case with a
non-matching string covers). -/
inductive RawMsg where
  | malformed
  | parsed (ty : String)
deriving DecidableEq

/-- The mutable module-level state of the launcher (launcher.js lines
78-86), together with the two pending timers the source creates with
setTimeout: the crash-restart timer (line 175) and the process.exit
timer (lines 322-325).  procPresent models lanPlayProc being non-null
and procKilled its killed flag. -/
structure LState where
  cfg : Config
  lanPlayRunning : Bool
  procPresent : Bool
  procKilled : Bool
  lastHeartbeat : Nat
  hasReceivedHeartbeat : Bool
  lastActivity : Nat
  shuttingDown : Bool
  connectedClients : List Conn
  restartAt : Option Nat
  exitAt : Option Nat
deriving DecidableEq

/-- getStatus (launcher.js lines 271-278). -/
def getStatus (s : LState) : Status :=
  { running := s.lanPlayRunning
    relay := s.cfg.relay
    platform := s.cfg.platform
    version := s.cfg.version }

/-- wsSend (launcher.js lines 257-261): send only when the connection
readyState is OPEN. -/
def wsSend (c : Conn) (m : Msg) : List (Nat × Msg) :=
  if c.readyState = 1 then [(c.id, m)] else []

/-- broadcastStatus (launcher.js lines 263-269): one status message to
every currently connected client whose readyState is OPEN. -/
def broadcastStatus (s : LState) : List (Nat × Msg) :=
  s.connectedClients.filterMap fun c =>
    if c.readyState = 1 then some (c.id, Msg.status (getStatus s)) else none

/-- The clients of s whose readyState is OPEN, in connection order. -/
def openClients (s : LState) : List Conn :=
  s.connectedClients.filter fun c => decide (c.readyState = 1)

/-- shutdown (launcher.js lines 304-326).  Re-entry is guarded by
shuttingDown; otherwise the flag is set, every connection is sent the
shutdown message (when OPEN) and closed, the subprocess is killed when
present and not yet killed, and process.exit is scheduled after the
grace delay. -/
def shutdown (s : LState) (now : Nat) : LState × Output :=
  if s.shuttingDown then (s, {})
  else
    ({ s with
        shuttingDown := true
        procKilled := s.procKilled || (s.procPresent && !s.procKilled)
        exitAt := some (now + exitDelayMs) },
     { logs := ["Shutting down..."]
       sends := s.connectedClients.filterMap fun c =>
         if c.readyState = 1 then some (c.id, Msg.shutdown "timeout") else none
       closes := s.connectedClients.map fun c => c.id
       kills := if s.procPresent && !s.procKilled then 1 else 0 })

/-- One tick of the shutdown monitor (launcher.js lines 283-302):
nothing while shutting down; otherwise the heartbeat condition (only
when a heartbeat was ever received) and then the inactivity condition,
each short-circuiting into shutdown. -/
def monitorTick (s : LState) (now : Nat) : LState × Output :=
  if s.shuttingDown then (s, {})
  else if s.hasReceivedHeartbeat ∧ heartbeatTimeoutMs < now - s.lastHeartbeat then
    ((shutdown s now).1,
     { (shutdown s now).2 with
        triggers := [Trigger.heartbeat]
        logs := "No heartbeat for 30s. Browser tab likely closed." :: (shutdown s now).2.logs })
  else if inactivityTimeoutMs < now - s.lastActivity then
    ((shutdown s now).1,
     { (shutdown s now).2 with
        triggers := [Trigger.inactivity]
        logs := "No activity for 10 minutes." :: (shutdown s now).2.logs })
  else (s, {})

/-- startLanPlay (launcher.js lines 147-185): spawn the subprocess,
mark it running, reset lastActivity, and broadcast status.  The source
performs no shuttingDown check here. -/
def startLanPlay (s : LState) (now : Nat) : LState × Output :=
  let s1 : LState :=
    { s with procPresent := true, procKilled := false, lanPlayRunning := true, lastActivity := now }
  (s1,
   { logs := ["Starting lan-play → " ++ s.cfg.relay]
     spawns := 1
     sends := broadcastStatus s1 })

/-- The close handler of the subprocess (launcher.js lines 168-177):
mark not running, broadcast status, and schedule a restart after the
fixed backoff unless already shutting down. -/
def lanPlayOnClose (s : LState) (code : Int) (now : Nat) : LState × Output :=
  let s1 : LState := { s with lanPlayRunning := false }
  let o1 : Output :=
    { logs := ["lan-play exited with code " ++ toString code], sends := broadcastStatus s1 }
  if s1.shuttingDown then (s1, o1)
  else
    ({ s1 with restartAt := some (now + restartDelayMs) },
     { o1 with logs := o1.logs ++ ["lan-play crashed. Restarting in 3 seconds..."] })

/-- The stdout data handler (launcher.js lines 155-160): log the
trimmed line when non-empty, update lastActivity, broadcast status. -/
def lanPlayOnStdout (s : LState) (data : String) (now : Nat) : LState × Output :=
  let line := data.trim
  let s1 : LState := { s with lastActivity := now }
  (s1,
   { logs := if line = "" then [] else ["[lan-play] " ++ line]
     sends := broadcastStatus s1 })

/-- The stderr data handler (launcher.js lines 162-166): log the
trimmed line when non-empty and update lastActivity.  Unlike the
stdout handler it performs no status broadcast. -/
def lanPlayOnStderr (s : LState) (data : String) (now : Nat) : LState × Output :=
  let line := data.trim
  ({ s with lastActivity := now },
   { logs := if line = "" then [] else ["[lan-play] " ++ line] })

/-- The spawn-error handler (launcher.js lines 179-182). -/
def lanPlayOnError (s : LState) (emsg : String) : LState × Output :=
  ({ s with lanPlayRunning := false },
   { logs := ["Failed to start lan-play: " ++ emsg] })

/-- The connection handler (launcher.js lines 204-241 head):
a connection carrying a truthy x-forwarded-for header is closed and
nothing else happens; otherwise the connection is registered, activity
is recorded, and the initial status message is sent to it. -/
def wssOnConnection (s : LState) (c : Conn) (forwarded : Bool) (now : Nat) : LState × Output :=
  if forwarded then
    (s,
     { logs := ["Rejected connection with X-Forwarded-For header (possible proxy)"]
       closes := [c.id] })
  else
    let s1 : LState := { s with connectedClients := s.connectedClients ++ [c], lastActivity := now }
    (s1,
     { logs := ["Browser connected"]
       sends := wsSend c (Msg.status (getStatus s1)) })

/-- The per-connection message handler (launcher.js lines 221-235):
every message updates lastActivity; a parsed heartbeat also records
the heartbeat and is acknowledged; a parsed status request is answered
with the current status; anything else, malformed input included, is
ignored. -/
def wsOnMessage (s : LState) (c : Conn) (raw : RawMsg) (now : Nat) : LState × Output :=
  let s1 : LState := { s with lastActivity := now }
  match raw with
  | RawMsg.malformed => (s1, {})
  | RawMsg.parsed ty =>
    if ty = "heartbeat" then
      ({ s1 with lastHeartbeat := now, hasReceivedHeartbeat := true },
       { sends := wsSend c Msg.heartbeatAck })
    else if ty = "status" then
      (s1, { sends := wsSend c (Msg.status (getStatus s1)) })
    else (s1, {})

/-- The per-connection close handler (launcher.js lines 237-240). -/
def wsOnClose (s : LState) (connId : Nat) : LState × Output :=
  ({ s with connectedClients := s.connectedClients.filter fun c => decide (c.id ≠ connId) },
   { logs := ["Browser disconnected"] })

/-- The launcher state right after the module-level initializers run
(launcher.js lines 78-86): lastActivity is Date.now at startup,
no heartbeat ever received, not shutting down, no clients, no
subprocess and no pending timers. -/
def initState (cfg : Config) (t0 : Nat) : LState :=
  { cfg := cfg
    lanPlayRunning := false
    procPresent := false
    procKilled := false
    lastHeartbeat := 0
    hasReceivedHeartbeat := false
    lastActivity := t0
    shuttingDown := false
    connectedClients := []
    restartAt := none
    exitAt := none }

/-- A timestamped event of the single-threaded reactor.  Each carries
the Date.now value at which its callback runs. -/
inductive Event where
  | tick (now : Nat)
  | connOpen (c : Conn) (forwarded : Bool) (now : Nat)
  | clientMsg (c : Conn) (raw : RawMsg) (now : Nat)
  | connClose (connId : Nat) (now : Nat)
  | stdoutData (data : String) (now : Nat)
  | stderrData (data : String) (now : Nat)
  | procExit (code : Int) (now : Nat)
  | restartFire (now : Nat)
  | procSpawnError (emsg : String) (now : Nat)
  | signal (name : String) (now : Nat)
deriving DecidableEq

/-- The timestamp an event carries. -/
def eventTime : Event → Nat
  | Event.tick now => now
  | Event.connOpen _ _ now => now
  | Event.clientMsg _ _ now => now
  | Event.connClose _ now => now
  | Event.stdoutData _ now => now
  | Event.stderrData _ now => now
  | Event.procExit _ now => now
  | Event.restartFire now => now
  | Event.procSpawnError _ now => now
  | Event.signal _ now => now

/-- Whether the process.exit scheduled by shutdown has already fired
by the given time; no callback runs after it. -/
def exitDue (s : LState) (now : Nat) : Bool :=
  match s.exitAt with
  | none => false
  | some e => decide (e ≤ now)

/-- Dispatch of one event to the source callback it models.  The
restart timer fires exactly at its scheduled time and is consumed; the
source runs startLanPlay then with no shuttingDown check (launcher.js
line 175). -/
def stepCore (s : LState) (e : Event) : LState × Output :=
  match e with
  | Event.tick now => monitorTick s now
  | Event.connOpen c forwarded now => wssOnConnection s c forwarded now
  | Event.clientMsg c raw now => wsOnMessage s c raw now
  | Event.connClose connId _ => wsOnClose s connId
  | Event.stdoutData data now => lanPlayOnStdout s data now
  | Event.stderrData data now => lanPlayOnStderr s data now
  | Event.procExit code now => lanPlayOnClose s code now
  | Event.restartFire now =>
    if s.restartAt = some now then startLanPlay { s with restartAt := none } now
    else (s, {})
  | Event.procSpawnError emsg _ => lanPlayOnError s emsg
  | Event.signal name now =>
    ((shutdown s now).1,
     { (shutdown s now).2 with
        logs := ("Received " ++ name ++ ".") :: (shutdown s now).2.logs })

/-- One reactor step: an event does nothing once the scheduled
process.exit time has been reached. -/
def step (s : LState) (e : Event) : LState × Output :=
  if exitDue s (eventTime e) then (s, {}) else stepCore s e

/-- Run a list of events in order, accumulating their effects. -/
def runTrace : LState → List Event → LState × Output
  | s, [] => (s, {})
  | s, e :: tr =>
    ((runTrace (step s e).1 tr).1, (step s e).2 ++ (runTrace (step s e).1 tr).2)

/-- Iterate direct shutdown invocations at the given times,
accumulating their effects. -/
def shutdownTimes : LState → List Nat → LState × Output
  | s, [] => (s, {})
  | s, t :: ts =>
    ((shutdownTimes (shutdown s t).1 ts).1,
     (shutdown s t).2 ++ (shutdownTimes (shutdown s t).1 ts).2)

/-- Whether an event is a client message that parses with type
heartbeat. -/
def isHeartbeatMsg : Event → Bool
  | Event.clientMsg _ (RawMsg.parsed ty) _ => decide (ty = "heartbeat")
  | _ => false

/-- An HTTP exchange outcome for one URL: a response with a status
code and optional Location header, or a request error. -/
inductive HttpResp where
  | resp (status : Nat) (location : Option String)
  | netError (emsg : String)

/-- JS truthiness of res.headers.location (launcher.js line 134): the
header must be present and non-empty. -/
def locTruthy : Option String → Bool
  | none => false
  | some l => decide (l ≠ "")

/-- followRedirects (launcher.js lines 128-142).  The network is a
function from URL to outcome.  The extra fuel argument only encodes
termination for Lean: every call site passes fuel = 6 - depth, the
recursion preserves fuel + depth = 6, and then the fuel-exhausted case
fires exactly when depth > 5 fires, returning the same error the
source returns there, so behaviour matches the source for every
reachable call. -/
def followRedirects (net : String → HttpResp) (url : String) (depth fuel : Nat) :
    Except String String :=
  match fuel with
  | 0 => Except.error "Too many redirects"
  | fuel + 1 =>
    if 5 < depth then Except.error "Too many redirects"
    else
      match net url with
      | HttpResp.netError m => Except.error m
      | HttpResp.resp status location =>
        if 300 ≤ status ∧ status < 400 ∧ locTruthy location then
          followRedirects net (location.getD "") (depth + 1) fuel
        else if status ≠ 200 then Except.error ("HTTP " ++ toString status)
        else Except.ok url

/-- The outcome of ensureBinary: the file was already present; a
download succeeded from the given final URL (with the executable bit
set on non-Windows platforms); or the download failed with the given
error message, recording whether the partial file at the target path
was removed. -/
inductive EnsureResult where
  | alreadyPresent
  | downloaded (fromUrl : String) (executable : Bool)
  | failed (err : String) (fileRemoved : Bool)
deriving DecidableEq

/-- ensureBinary (launcher.js lines 99-125).  When the file already
exists it resolves at once without touching the network; otherwise the
download runs through followRedirects from depth 0; on success the
response is streamed to the path and chmod runs on non-Windows; on any
failure the error callback unlinks the partial file (line 121) before
rejecting, which fileRemoved = true records. -/
def ensureBinary (fileExists : Bool) (net : String → HttpResp) (url : String)
    (isWin : Bool) : EnsureResult :=
  if fileExists then EnsureResult.alreadyPresent
  else
    match followRedirects net url 0 6 with
    | Except.ok u => EnsureResult.downloaded u (!isWin)
    | Except.error e => EnsureResult.failed ("Failed to download lan-play: " ++ e) true

/-- A network in which every URL answers with a redirect to itself. -/
def loopNet : String → HttpResp := fun u => HttpResp.resp 302 (some u)

/-- A network with a chain of five redirects ending in a success. -/
def chainNet : String → HttpResp := fun u =>
  if u = "r0" then HttpResp.resp 302 (some "r1")
  else if u = "r1" then HttpResp.resp 302 (some "r2")
  else if u = "r2" then HttpResp.resp 301 (some "r3")
  else if u = "r3" then HttpResp.resp 302 (some "r4")
  else if u = "r4" then HttpResp.resp 302 (some "ok")
  else HttpResp.resp 200 none

/-- A sample configuration for concrete runs. -/
def exCfg : Config :=
  { relay := "relay.example.com:11451", platform := "linux", version := "0.2.3" }

/-- A sample open control connection. -/
def exOpenConn : Conn := { id := 0, readyState := 1 }

/-- A sample connection that is no longer OPEN. -/
def exClosedConn : Conn := { id := 1, readyState := 3 }

/-- A launcher with a live subprocess, one open and one non-open
connection, and no heartbeat received yet. -/
def exRun : LState :=
  { initState exCfg 0 with
      lanPlayRunning := true
      procPresent := true
      connectedClients := [exOpenConn, exClosedConn] }

/-- A launcher with one open connection that heartbeated at time 0. -/
def exHb : LState :=
  { initState exCfg 0 with
      lanPlayRunning := true
      procPresent := true
      hasReceivedHeartbeat := true
      lastHeartbeat := 0
      connectedClients := [exOpenConn] }

/-- The start state of the restart-race scenario: subprocess running,
nothing else going on. -/
def raceStart : LState :=
  { initState exCfg 0 with lanPlayRunning := true, procPresent := true }

/-- The restart-race trace: the subprocess crashes at time 0, which
schedules a restart for time 3000; a SIGINT arrives at time 2500 and
shutdown begins, scheduling process.exit for time 3500; the pending
restart timer then fires at time 3000, before the exit. -/
def raceTrace : List Event :=
  [Event.procExit 1 0, Event.signal "SIGINT" 2500, Event.restartFire 3000]

theorem Output.append_def (a b : Output) : a ++ b = Output.append a b := rfl

theorem Output.append_empty (o : Output) : o ++ ({} : Output) = o := by
  cases o
  simp [Output.append_def, Output.append]

theorem Output.triggers_append (a b : Output) :
    (a ++ b).triggers = a.triggers ++ b.triggers := rfl

theorem filterMap_guard {α β : Type} (p : α → Prop) [DecidablePred p]
    (f : α → β) (l : List α) :
    (l.filterMap fun a => if p a then some (f a) else none) =
      (l.filter fun a => decide (p a)).map f := by
  induction l with
  | nil => rfl
  | cons a l ih =>
    by_cases h : p a <;> simp [List.filterMap_cons, List.filter_cons, h, ih]

theorem shutdown_of_shuttingDown (s : LState) (t : Nat) (h : s.shuttingDown = true) :
    shutdown s t = (s, {}) := by
  simp [shutdown, h]

theorem shutdown_fst_shuttingDown (s : LState) (t : Nat) (h : s.shuttingDown = false) :
    (shutdown s t).1.shuttingDown = true := by
  simp [shutdown, h]

theorem shutdown_fst_hasReceivedHeartbeat (s : LState) (t : Nat) :
    (shutdown s t).1.hasReceivedHeartbeat = s.hasReceivedHeartbeat := by
  cases h : s.shuttingDown <;> simp [shutdown, h]

theorem shutdown_triggers (s : LState) (t : Nat) : (shutdown s t).2.triggers = [] := by
  cases h : s.shuttingDown <;> simp [shutdown, h]

theorem shutdown_sends (s : LState) (t : Nat) (h : s.shuttingDown = false) :
    (shutdown s t).2.sends = (openClients s).map (fun c : Conn => (c.id, Msg.shutdown "timeout")) := by
  simp only [shutdown, h, Bool.false_eq_true, if_false, openClients]
  exact filterMap_guard (fun c : Conn => c.readyState = 1)
    (fun c : Conn => (c.id, Msg.shutdown "timeout")) _

theorem shutdown_closes (s : LState) (t : Nat) (h : s.shuttingDown = false) :
    (shutdown s t).2.closes = s.connectedClients.map fun c => c.id := by
  simp [shutdown, h]

theorem shutdown_kills (s : LState) (t : Nat) (h1 : s.shuttingDown = false)
    (h2 : s.procPresent = true) (h3 : s.procKilled = false) :
    (shutdown s t).2.kills = 1 := by
  simp [shutdown, h1, h2, h3]

theorem shutdownTimes_of_shuttingDown (s : LState) (ts : List Nat)
    (h : s.shuttingDown = true) : shutdownTimes s ts = (s, {}) := by
  induction ts with
  | nil => rfl
  | cons t ts ih =>
    simp [shutdownTimes, shutdown_of_shuttingDown s t h, ih, Output.append_empty]

/-- C1: shutdown is idempotent.  Starting from a state that is not yet
shutting down and has a live, unkilled subprocess, a run of N >= 1
shutdown invocations has exactly the effects of the first: the
shutdown message goes exactly once to each OPEN control connection,
exactly one kill call reaches the subprocess, the ShutdownState flag is
true afterwards, and every invocation on a state whose flag is already
true returns the state unchanged with no effects. -/
theorem shutdown_idempotent (s : LState) (t : Nat) (ts : List Nat)
    (h1 : s.shuttingDown = false) (h2 : s.procPresent = true) (h3 : s.procKilled = false) :
    shutdownTimes s (t :: ts) = shutdown s t
    ∧ (shutdown s t).2.sends = (openClients s).map (fun c => (c.id, Msg.shutdown "timeout"))
    ∧ (shutdown s t).2.kills = 1
    ∧ (shutdown s t).1.shuttingDown = true
    ∧ (∀ s2 t2, s2.shuttingDown = true → shutdown s2 t2 = (s2, {})) := by
  refine ⟨?_, shutdown_sends s t h1, shutdown_kills s t h1 h2 h3,
    shutdown_fst_shuttingDown s t h1, fun s2 t2 h => shutdown_of_shuttingDown s2 t2 h⟩
  have hsd := shutdown_fst_shuttingDown s t h1
  simp [shutdownTimes, shutdownTimes_of_shuttingDown _ ts hsd, Output.append_empty]

/-- Witness for C1 at a concrete launcher state and three invocation
times. -/
theorem shutdown_idempotent_witness : shutdownTimes exRun [5, 6, 7] = shutdown exRun 5 :=
  (shutdown_idempotent exRun 5 [6, 7] rfl rfl rfl).1

theorem monitorTick_no_heartbeat (s : LState) (now : Nat)
    (h : s.hasReceivedHeartbeat = false) :
    (monitorTick s now).1.hasReceivedHeartbeat = false ∧
      Trigger.heartbeat ∉ (monitorTick s now).2.triggers := by
  by_cases hs : s.shuttingDown = true
  · simp [monitorTick, hs, h]
  · simp only [Bool.not_eq_true] at hs
    by_cases hin : inactivityTimeoutMs < now - s.lastActivity <;>
      simp [monitorTick, hs, h, hin, shutdown_fst_hasReceivedHeartbeat]

theorem step_preserves_no_heartbeat (s : LState) (e : Event)
    (he : isHeartbeatMsg e = false) (h : s.hasReceivedHeartbeat = false) :
    (step s e).1.hasReceivedHeartbeat = false ∧
      Trigger.heartbeat ∉ (step s e).2.triggers := by
  cases hex : exitDue s (eventTime e) with
  | true => simp [step, hex, h]
  | false =>
    simp only [step, hex, Bool.false_eq_true, if_false]
    cases e with
    | tick now => exact monitorTick_no_heartbeat s now h
    | connOpen c f now => cases f <;> simp [stepCore, wssOnConnection, h]
    | clientMsg c raw now =>
      cases raw with
      | malformed => simp [stepCore, wsOnMessage, h]
      | parsed ty =>
        have hty : ¬ ty = "heartbeat" := by simpa [isHeartbeatMsg] using he
        by_cases hty2 : ty = "status" <;> simp [stepCore, wsOnMessage, hty, hty2, h]
    | connClose cid now => simp [stepCore, wsOnClose, h]
    | stdoutData d now => simp [stepCore, lanPlayOnStdout, h]
    | stderrData d now => simp [stepCore, lanPlayOnStderr, h]
    | procExit code now =>
      by_cases hsd : s.shuttingDown = true <;> simp [stepCore, lanPlayOnClose, hsd, h]
    | restartFire now =>
      by_cases hr : s.restartAt = some now <;> simp [stepCore, startLanPlay, hr, h]
    | procSpawnError m now => simp [stepCore, lanPlayOnError, h]
    | signal name now =>
      simp [stepCore, shutdown_fst_hasReceivedHeartbeat, shutdown_triggers, h]

/-- C3: over any event sequence that contains no heartbeat message,
starting from any state in which no heartbeat has ever been received,
everReceivedHeartbeat stays false and the heartbeat-timeout trigger
never fires on any monitor tick, however large the timestamps grow. -/
theorem no_heartbeat_trigger_without_heartbeat (s : LState) (tr : List Event)
    (h0 : s.hasReceivedHeartbeat = false)
    (htr : ∀ e ∈ tr, isHeartbeatMsg e = false) :
    (runTrace s tr).1.hasReceivedHeartbeat = false ∧
      Trigger.heartbeat ∉ (runTrace s tr).2.triggers := by
  induction tr generalizing s with
  | nil => exact ⟨h0, by simp [runTrace]⟩
  | cons e tr ih =>
    obtain ⟨h1, h2⟩ := step_preserves_no_heartbeat s e (htr e (by simp)) h0
    obtain ⟨h3, h4⟩ := ih (step s e).1 h1 (fun x hx => htr x (by simp [hx]))
    refine ⟨h3, ?_⟩
    simp only [runTrace, Output.triggers_append, List.mem_append, not_or]
    exact ⟨h2, h4⟩

/-- Witness for C3 on a concrete heartbeat-free trace that includes a
very late monitor tick, a client status message and subprocess
output. -/
theorem no_heartbeat_trigger_without_heartbeat_witness :
    Trigger.heartbeat ∉
      (runTrace (initState exCfg 0)
        [Event.clientMsg exOpenConn (RawMsg.parsed "status") 5,
         Event.stdoutData "ready" 10,
         Event.tick 100000000]).2.triggers :=
  (no_heartbeat_trigger_without_heartbeat (initState exCfg 0)
    [Event.clientMsg exOpenConn (RawMsg.parsed "status") 5,
     Event.stdoutData "ready" 10,
     Event.tick 100000000] rfl (by decide)).2

/-- C6: a connection attempt carrying a forwarding header is closed
without being registered, without any ActivityClock change (the whole
state is returned unchanged) and without being sent the initial
status message. -/
theorem forwarded_connection_rejected (s : LState) (c : Conn) (now : Nat) :
    (wssOnConnection s c true now).1 = s
    ∧ (wssOnConnection s c true now).2.sends = []
    ∧ (wssOnConnection s c true now).2.closes = [c.id] :=
  ⟨rfl, rfl, rfl⟩

/-- C9: lastActivityAt starts at the launcher startup time and is
reset to the current time by every subprocess start; for a launcher
that has observed no event, a monitor tick at time t trips the
inactivity trigger exactly when t - t0 exceeds the ten-minute
timeout, and in particular never within the first ten minutes. -/
theorem inactivity_trigger_iff (cfg : Config) (t0 t : Nat) :
    (initState cfg t0).lastActivity = t0
    ∧ (∀ s now, (startLanPlay s now).1.lastActivity = now)
    ∧ ((monitorTick (initState cfg t0) t).2.triggers = [Trigger.inactivity]
        ↔ inactivityTimeoutMs < t - t0)
    ∧ (t ≤ t0 + inactivityTimeoutMs →
        (monitorTick (initState cfg t0) t).2.triggers = []) := by
  refine ⟨rfl, fun s now => rfl, ?_, ?_⟩
  · by_cases hc : inactivityTimeoutMs < t - t0 <;>
      simp [monitorTick, initState, shutdown, hc]
  · intro hle
    have hc : ¬ inactivityTimeoutMs < t - t0 := by omega
    simp [monitorTick, initState, hc]

/-- Witness for C9: one millisecond past the ten-minute mark the
inactivity trigger fires, discharging the iff at a concrete time. -/
theorem inactivity_trigger_iff_witness :
    (monitorTick (initState exCfg 0) 600001).2.triggers = [Trigger.inactivity] :=
  ((inactivity_trigger_iff exCfg 0 600001).2.2.1).mpr (by decide)

/-- C10: a parseable client message whose type is neither heartbeat
nor status only updates lastActivityAt and has no other effect on
state or outputs, exactly like a malformed message. -/
theorem unknown_message_frame (s : LState) (c : Conn) (ty : String) (now : Nat)
    (h1 : ty ≠ "heartbeat") (h2 : ty ≠ "status") :
    wsOnMessage s c (RawMsg.parsed ty) now = ({ s with lastActivity := now }, {})
    ∧ wsOnMessage s c (RawMsg.parsed ty) now = wsOnMessage s c RawMsg.malformed now := by
  constructor <;> simp [wsOnMessage, h1, h2]

/-- Witness for C10 with a concrete unrecognised message type. -/
theorem unknown_message_frame_witness :
    wsOnMessage exRun exOpenConn (RawMsg.parsed "ping") 7 =
      ({ exRun with lastActivity := 7 }, {}) :=
  (unknown_message_frame exRun exOpenConn "ping" 7 (by decide) (by decide)).1

/-- C2: evaluation of the restart race at the failing input.  The
subprocess crashes at time 0 while not shutting down, so a restart is
scheduled for time 3000; shutdown begins at time 2500, which schedules
process.exit for time 3500; the restart timer then fires at time 3000,
before the exit, and startLanPlay runs without consulting
ShutdownState: the final state is shutting down yet holds a freshly
spawned, unkilled subprocess (one spawn occurred after shutdown
began), contradicting the claim that a scheduled restart never acts
once shutdown has begun. -/
theorem restart_acts_after_shutdown_began :
    (runTrace raceStart raceTrace).1.shuttingDown = true
    ∧ (runTrace raceStart raceTrace).2.spawns = 1
    ∧ (runTrace raceStart raceTrace).1.lanPlayRunning = true
    ∧ (runTrace raceStart raceTrace).1.procKilled = false
    ∧ (runTrace raceStart raceTrace).1.exitAt = some 3500 := by
  decide

/-- C4 counterexample: with one OPEN connection and a stale heartbeat,
the tick at time 40000 trips the heartbeat trigger, yet the broadcast
shutdown message carries the fixed reason timeout, and no message with
reason no heartbeat is sent to anyone. -/
theorem monitor_reason_cex :
    (monitorTick exHb 40000).2.triggers = [Trigger.heartbeat]
    ∧ (monitorTick exHb 40000).2.sends = [(0, Msg.shutdown "timeout")]
    ∧ (0, Msg.shutdown "no heartbeat") ∉ (monitorTick exHb 40000).2.sends := by
  decide

/-- C4 amended: the monitor distinguishes the two trip conditions
(heartbeat timeout first, then inactivity), but the broadcast that
shutdown sends to every OPEN control connection always carries the
fixed reason string timeout, for either trigger, before all
connections are closed. -/
theorem monitor_broadcast_reason (s : LState) (now : Nat)
    (h0 : s.shuttingDown = false) (hb : s.hasReceivedHeartbeat = true)
    (ht : heartbeatTimeoutMs < now - s.lastHeartbeat) :
    (monitorTick s now).2.triggers = [Trigger.heartbeat]
    ∧ (monitorTick s now).2.sends =
        (openClients s).map (fun c : Conn => (c.id, Msg.shutdown "timeout"))
    ∧ (monitorTick s now).2.closes = s.connectedClients.map (fun c : Conn => c.id)
    ∧ (∀ s2 now2, s2.shuttingDown = false → s2.hasReceivedHeartbeat = false →
        inactivityTimeoutMs < now2 - s2.lastActivity →
        (monitorTick s2 now2).2.triggers = [Trigger.inactivity]
        ∧ (monitorTick s2 now2).2.sends =
            (openClients s2).map (fun c : Conn => (c.id, Msg.shutdown "timeout"))) := by
  refine ⟨?_, ?_, ?_, ?_⟩
  · simp [monitorTick, h0, hb, ht]
  · simp [monitorTick, h0, hb, ht, shutdown_sends s now h0]
  · simp [monitorTick, h0, hb, ht, shutdown_closes s now h0]
  · intro s2 now2 h02 hb2 hin2
    constructor
    · simp [monitorTick, h02, hb2, hin2]
    · simp [monitorTick, h02, hb2, hin2, shutdown_sends s2 now2 h02]

/-- Witness for the amended C4 at a concrete tripped state. -/
theorem monitor_broadcast_reason_witness :
    (monitorTick exHb 40000).2.sends =
      (openClients exHb).map (fun c : Conn => (c.id, Msg.shutdown "timeout")) :=
  (monitor_broadcast_reason exHb 40000 rfl rfl (by decide)).2.1

/-- C5 counterexample: with one OPEN connected client, a line arriving
on the stderr stream produces no status broadcast at all, while the
same line on stdout does broadcast — the claim that both streams
trigger a broadcast fails on stderr. -/
theorem stderr_no_broadcast_cex :
    exHb.connectedClients = [exOpenConn] ∧ exOpenConn.readyState = 1
    ∧ (lanPlayOnStderr exHb "relay error" 42).2.sends = []
    ∧ (lanPlayOnStdout exHb "relay error" 42).2.sends =
        [(0, Msg.status (getStatus exHb))] := by
  decide

/-- C5 amended: every subprocess output chunk, on either stream,
updates lastActivityAt to the current time and surfaces its trimmed
line to the log sink when that line is non-empty; a chunk on stdout
additionally triggers a status broadcast to every OPEN connected
client, while a chunk on stderr sends nothing. -/
theorem output_line_effects (s : LState) (data : String) (now : Nat) :
    (lanPlayOnStdout s data now).1 = { s with lastActivity := now }
    ∧ (lanPlayOnStdout s data now).2.logs =
        (if data.trim = "" then [] else ["[lan-play] " ++ data.trim])
    ∧ (lanPlayOnStdout s data now).2.sends =
        (openClients s).map (fun c : Conn => (c.id, Msg.status (getStatus s)))
    ∧ (lanPlayOnStderr s data now).1 = { s with lastActivity := now }
    ∧ (lanPlayOnStderr s data now).2.logs =
        (if data.trim = "" then [] else ["[lan-play] " ++ data.trim])
    ∧ (lanPlayOnStderr s data now).2.sends = [] := by
  refine ⟨rfl, rfl, ?_, rfl, rfl, rfl⟩
  show broadcastStatus { s with lastActivity := now } = _
  simp only [broadcastStatus, openClients]
  exact filterMap_guard (fun c : Conn => c.readyState = 1)
    (fun c : Conn => (c.id, Msg.status (getStatus s))) _

/-- C7: when the file is already present, acquisition succeeds at once
with no network interaction for any network behaviour; redirects are
followed up to depth 5 (a chain of five redirects ending in a 200
succeeds); a sixth redirect is a terminal download error; a response
that is neither a redirect nor a 200 is a terminal download error
carrying its status code; and a failing download makes ensureBinary
fail instead of producing a binary. -/
theorem ensureBinary_behaviour :
    (∀ net url w, ensureBinary true net url w = EnsureResult.alreadyPresent)
    ∧ followRedirects chainNet "r0" 0 6 = Except.ok "ok"
    ∧ followRedirects loopNet "a" 0 6 = Except.error "Too many redirects"
    ∧ (∀ url status loc, ¬(300 ≤ status ∧ status < 400 ∧ locTruthy loc) → status ≠ 200 →
        followRedirects (fun _ => HttpResp.resp status loc) url 0 6 =
          Except.error ("HTTP " ++ toString status))
    ∧ (∀ w, ensureBinary false loopNet "a" w =
        EnsureResult.failed "Failed to download lan-play: Too many redirects" true) := by
  refine ⟨fun net url w => rfl, rfl, rfl, ?_, fun w => rfl⟩
  intro url status loc h1 h2
  simp [followRedirects, h1, h2]

/-- Witness for C7 at a concrete non-redirect failing status. -/
theorem ensureBinary_behaviour_witness :
    followRedirects (fun _ => HttpResp.resp 404 none) "u" 0 6 = Except.error "HTTP 404" :=
  ensureBinary_behaviour.2.2.2.1 "u" 404 none (by decide) (by decide)

/-- C8: whenever the download fails — redirect depth exceeded,
non-success status, or network error, i.e. whenever followRedirects
returns an error — ensureBinary surfaces that error with the partial
file removed, and every failure result it can produce at all has the
file removed. -/
theorem download_failure_removes_file :
    (∀ net url w e, followRedirects net url 0 6 = Except.error e →
        ensureBinary false net url w =
          EnsureResult.failed ("Failed to download lan-play: " ++ e) true)
    ∧ (∀ net url w err removed,
        ensureBinary false net url w = EnsureResult.failed err removed → removed = true) := by
  constructor
  · intro net url w e h
    simp [ensureBinary, h]
  · intro net url w err removed h
    simp only [ensureBinary, Bool.false_eq_true, if_false] at h
    cases hf : followRedirects net url 0 6 with
    | ok u => rw [hf] at h; cases h
    | error e =>
      rw [hf] at h
      cases h
      rfl

/-- Witness for C8 on the looping network: a network error surface
with the partial file removed. -/
theorem download_failure_removes_file_witness :
    ensureBinary false loopNet "a" false =
      EnsureResult.failed ("Failed to download lan-play: " ++ "Too many redirects") true :=
  download_failure_removes_file.1 loopNet "a" false "Too many redirects" rfl

end LanPlayBridge
